import Mathlib

/-!
Verification development for the `ants/scripts/smart_downloader.py` fetch
orchestrator of the amalgkit repository.

The Python source is shallowly embedded: pure inspection code becomes Lean
functions over an explicit model of a file's observable content, and the
filesystem side effects (removing invalid files, writing the completion
marker) become explicit state passing over an association-list model of the
per-item output directory.  External subprocesses and the network are
modelled as oracles supplied as inputs.
-/

/-- Reason code attached to a validation verdict.  Each constructor
corresponds to one `return False` site (or the final success) of
`is_valid_fastq_file` in `smart_downloader.py`. -/
inductive VReason where
  | headerReadError
  | errorPage
  | gzipError
  | readError
  | truncated
  | noAtSign
  | noPlusSign
  | ok
deriving DecidableEq, Repr

/-- Boolean validity plus a reason code (the spec's `ValidationResult`). -/
structure ValidationResult where
  valid : Bool
  reason : VReason
deriving DecidableEq, Repr

/-- Observable content of one on-disk file, as consumed by the validator:
its byte size, the decoded first 200 bytes (`header`), whether the two
`open` calls succeed (`readable`), whether a `.gz` stream decompresses
without error (`decompressible`), and the logical lines of the
(decompressed) text in order. -/
structure FileData where
  size : Nat
  header : String
  readable : Bool
  decompressible : Bool
  lines : List String
deriving DecidableEq, Repr

/-- Character-level string matching, used instead of the built-in string
functions so that every string operation reduces inside the kernel. -/
def startsWithChars : List Char → List Char → Bool
  | _, [] => true
  | [], _ :: _ => false
  | c :: cs, p :: ps => if c = p then startsWithChars cs ps else false

/-- `str.startswith(p)`. -/
def strStartsWith (s p : String) : Bool :=
  startsWithChars s.data p.data

/-- `str.endswith(p)`. -/
def strEndsWith (s p : String) : Bool :=
  startsWithChars s.data.reverse p.data.reverse

/-- `needle in hay` on character lists. -/
def hasSubChars : List Char → List Char → Bool
  | [], needle => needle.isEmpty
  | hay@(_ :: rest), needle =>
    startsWithChars hay needle || hasSubChars rest needle

/-- `str.lower()` on one character (ASCII, which is all the program
compares). -/
def lowerChar (c : Char) : Char :=
  if 65 ≤ c.toNat ∧ c.toNat ≤ 90 then Char.ofNat (c.toNat + 32) else c

/-- The error-page markers probed for in the leading bytes
(`smart_downloader.py` line 122). -/
def errorMarkers : List String :=
  ["<!doctype html", "<html", "error", "not found", "404"]

/-- `any(error_marker in header for ...)` over the lowercased header. -/
def containsErrorMarker (header : String) : Bool :=
  errorMarkers.any (fun m => hasSubChars (header.data.map lowerChar) m.data)

/-- The four-line structural FASTQ check shared by the gzip and plain
branches of `is_valid_fastq_file` (lines 144-158 and 178-192): fewer than
four lines is truncated; line 1 must start with `@`; line 3 must start
with `+`. -/
def structuralCheck : List String → ValidationResult
  | l1 :: _ :: l3 :: _ :: _ =>
    if strStartsWith l1 "@" = false then ⟨false, VReason.noAtSign⟩
    else if strStartsWith l3 "+" = false then ⟨false, VReason.noPlusSign⟩
    else ⟨true, VReason.ok⟩
  | _ => ⟨false, VReason.truncated⟩

/-- The branch of `is_valid_fastq_file` after the small-file header probe:
gzip handling (lines 130-162) versus plain-text handling (lines 164-196).
A failed gzip open or read is an invalid result; a failed plain open is an
invalid result; otherwise the first four logical lines are checked. -/
def structuralPart (path : String) (fd : FileData) : ValidationResult :=
  if strEndsWith path ".gz" = true then
    if fd.decompressible = true then structuralCheck (fd.lines.take 4)
    else ⟨false, VReason.gzipError⟩
  else
    if fd.readable = true then structuralCheck (fd.lines.take 4)
    else ⟨false, VReason.readError⟩

/-- Embeds `is_valid_fastq_file` (`smart_downloader.py` lines 111-202).
A file under 1024 bytes first has its leading bytes probed for error-page
markers; then the content is checked structurally.  The Python function
returns only a boolean; the reason component records which branch
produced the verdict.  Totality of this function models the contract that
the validator never raises. -/
def is_valid_fastq_file (path : String) (fd : FileData) : ValidationResult :=
  if fd.size < 1024 then
    if fd.readable = false then ⟨false, VReason.headerReadError⟩
    else if containsErrorMarker fd.header = true then ⟨false, VReason.errorPage⟩
    else structuralPart path fd
  else structuralPart path fd

/-- The per-item output directory: an association list from file name to
file content.  A nonexistent directory is modelled by the empty list. -/
abbrev Dir := List (String × FileData)

/-- Look up a file by name. -/
def Dir.lookup? : Dir → String → Option FileData
  | [], _ => none
  | (n, fd) :: rest, m => if n = m then some fd else Dir.lookup? rest m

/-- `os.path.exists` inside the item directory. -/
def Dir.fileExists (d : Dir) (n : String) : Bool :=
  (Dir.lookup? d n).isSome

/-- `os.path.getsize` (0 for a missing file; callers guard on existence). -/
def Dir.getsize (d : Dir) (n : String) : Nat :=
  match Dir.lookup? d n with
  | some fd => fd.size
  | none => 0

/-- `os.remove`. -/
def Dir.remove : Dir → String → Dir
  | [], _ => []
  | (n, fd) :: rest, m =>
    if n = m then Dir.remove rest m else (n, fd) :: Dir.remove rest m

/-- Writing a file (used for the completion marker). -/
def Dir.insert (d : Dir) (n : String) (fd : FileData) : Dir :=
  (n, fd) :: Dir.remove d n

/-- `os.listdir`. -/
def Dir.names (d : Dir) : List String :=
  d.map Prod.fst

/-- Content written to the completion marker file ("Downloaded and
verified on ..."); its content is never inspected by the program. -/
def markerData : FileData :=
  { size := 42, header := "downloaded and verified on", readable := true,
    decompressible := false, lines := ["Downloaded and verified on"] }

/-- `{srr_id}.completed`, the completion marker name. -/
def markerFileName (srr : String) : String :=
  srr ++ ".completed"

/-- Validity of the named file in a directory, as the callers of
`is_valid_fastq_file` observe it (a missing file is never valid). -/
def validAt (d : Dir) (f : String) : Bool :=
  match Dir.lookup? d f with
  | some fd => (is_valid_fastq_file f fd).valid
  | none => false

/-- The six paired file-name conventions, in the order shared by
`verify_and_clean_downloads` (lines 211-218) and `check_existing_files`
(lines 305-314). -/
def file_pairs (srr : String) : List (String × String) :=
  [(srr ++ "_1.fastq.gz", srr ++ "_2.fastq.gz"),
   (srr ++ "_1.fastq", srr ++ "_2.fastq"),
   (srr ++ ".1.fastq.gz", srr ++ ".2.fastq.gz"),
   (srr ++ ".1.fastq", srr ++ ".2.fastq"),
   (srr ++ "_1.fq.gz", srr ++ "_2.fq.gz"),
   (srr ++ "_1.fq", srr ++ "_2.fq")]

/-- The four single-end file-name conventions (lines 246-251 and
316-322). -/
def single_files (srr : String) : List String :=
  [srr ++ ".fastq.gz", srr ++ ".fastq", srr ++ ".fq.gz", srr ++ ".fq"]

/-- Paired loop of `verify_and_clean_downloads` (lines 220-243).  Note the
`elif` chain of the source: when both halves of a pair are invalid only
the first is removed before moving to the next pattern. -/
def verifyPairedLoop : Dir → List (String × String) → Dir × Bool
  | d, [] => (d, false)
  | d, (f1, f2) :: rest =>
    if Dir.fileExists d f1 = true ∧ Dir.fileExists d f2 = true then
      if validAt d f1 = true ∧ validAt d f2 = true then (d, true)
      else
        let d2 :=
          if validAt d f1 = false then Dir.remove d f1
          else if validAt d f2 = false then Dir.remove d f2
          else d
        verifyPairedLoop d2 rest
    else verifyPairedLoop d rest

/-- Single-end loop of `verify_and_clean_downloads` (lines 253-268). -/
def verifySingleLoop : Dir → List String → Dir × Bool
  | d, [] => (d, false)
  | d, f :: rest =>
    if Dir.fileExists d f = true then
      if validAt d f = true then (d, true)
      else verifySingleLoop (Dir.remove d f) rest
    else verifySingleLoop d rest

/-- Embeds `verify_and_clean_downloads` (lines 204-280): walk the naming
conventions for the given layout, removing invalid files; if no valid set
is found, also remove the completion marker. -/
def verify_and_clean_downloads (d : Dir) (srr : String) (is_paired : Bool) :
    Dir × Bool :=
  let r := if is_paired then verifyPairedLoop d (file_pairs srr)
           else verifySingleLoop d (single_files srr)
  if r.2 = true then r else (Dir.remove r.1 (markerFileName srr), false)

/-- Paired-pattern loop of `check_existing_files` (lines 330-354): both
halves must exist and be non-empty; if both validate the marker is
written; otherwise each invalid half is removed (two independent `if`s
here, unlike the `elif` chain in `verify_and_clean_downloads`). -/
def checkPairedPatterns (marker : String) :
    Dir → List (String × String) → Dir × Bool
  | d, [] => (d, false)
  | d, (f1, f2) :: rest =>
    if Dir.fileExists d f1 = true ∧ 0 < Dir.getsize d f1 ∧
       Dir.fileExists d f2 = true ∧ 0 < Dir.getsize d f2 then
      if validAt d f1 = true ∧ validAt d f2 = true then
        (Dir.insert d marker markerData, true)
      else
        let d1 := if validAt d f1 = false then Dir.remove d f1 else d
        let d2 := if validAt d f2 = false then Dir.remove d1 f2 else d1
        checkPairedPatterns marker d2 rest
    else checkPairedPatterns marker d rest

/-- Single-pattern loop of `check_existing_files` (lines 356-371). -/
def checkSinglePatterns (marker : String) : Dir → List String → Dir × Bool
  | d, [] => (d, false)
  | d, f :: rest =>
    if Dir.fileExists d f = true ∧ 0 < Dir.getsize d f then
      if validAt d f = true then (Dir.insert d marker markerData, true)
      else checkSinglePatterns marker (Dir.remove d f) rest
    else checkSinglePatterns marker d rest

/-- Python truthiness of the `paired` argument, which may be `True`,
`False` or `None` (layout unknown): only `True` selects the paired
patterns. -/
def truthy : Option Bool → Bool
  | some true => true
  | _ => false

/-- Embeds `check_existing_files` (lines 282-373): if the completion
marker exists, re-verify the files it implies and drop the marker on
failure; otherwise scan the naming conventions for the (truthy) layout,
writing the marker when a valid set is found. -/
def check_existing_files (d : Dir) (srr : String) (paired : Option Bool) :
    Dir × Bool :=
  let marker := markerFileName srr
  if Dir.fileExists d marker = true then
    let v := verify_and_clean_downloads d srr (truthy paired)
    if v.2 = true then (v.1, true) else (Dir.remove v.1 marker, false)
  else if truthy paired = true then
    checkPairedPatterns marker d (file_pairs srr)
  else
    checkSinglePatterns marker d (single_files srr)

/-- One metadata row: column name to cell value; `none` models a missing
value (NaN), on which `.lower()` would raise (caught, yielding unknown). -/
structure MetaRow where
  cells : List (String × Option String)
deriving DecidableEq, Repr

/-- Cell access for a row. -/
def MetaRow.cell (r : MetaRow) (c : String) : Option String :=
  match r.cells.lookup c with
  | some v => v
  | none => none

/-- The metadata table: whether `pd.read_csv` succeeded, the column
names, and the rows. -/
structure Metadata where
  parseOk : Bool
  columns : List String
  rows : List MetaRow
deriving Repr

/-- `str.lower()` via `lowerChar`. -/
def strLower (s : String) : String :=
  ⟨s.data.map lowerChar⟩

/-- Embeds `get_layout_from_metadata` (lines 375-397): look the row up by
`run_accession` (or `run` as fallback schema), read the layout column and
compare case-insensitively against "paired"; any parse failure, lookup
miss, missing column or missing value yields `none` (unknown). -/
def get_layout_from_metadata (m : Metadata) (srr : String) : Option Bool :=
  if m.parseOk = false then none
  else if (m.columns.contains "run_accession") = false then
    if m.columns.contains "run" then
      match m.rows.find? (fun r => r.cell "run" == some srr) with
      | some r =>
        if m.columns.contains "lib_layout" then
          match r.cell "lib_layout" with
          | some s => some (strLower s == "paired")
          | none => none
        else none
      | none => none
    else none
  else
    match m.rows.find? (fun r => r.cell "run_accession" == some srr) with
    | some r =>
      if m.columns.contains "library_layout" then
        match r.cell "library_layout" with
        | some s => some (strLower s == "paired")
        | none => none
      else none
    | none => none

/-- File names requested by each URL pattern of `try_download_with_curl`
(lines 524-528, repeated at 592-596 and 663-667): the paired pair only
under a truthy layout, a lone single-end name otherwise (so also when the
layout is unknown). -/
def curl_file_names (srr : String) (is_paired : Option Bool) : List String :=
  if truthy is_paired = true then
    [srr ++ "_1.fastq.gz", srr ++ "_2.fastq.gz"]
  else
    [srr ++ ".fastq.gz"]

/-- `.fastq.gz`-or-`.fastq` extension test of line 781. -/
def hasFastqExt (f : String) : Bool :=
  strEndsWith f ".fastq.gz" || strEndsWith f ".fastq"

/-- Oracle for the two `fastq-dump` subprocess invocations of
`download_with_fastq_dump`: exit status of the `--split-files` attempt and
of the unsplit fallback, and the directory contents after each. -/
structure FastqDumpRun where
  splitExitOk : Bool
  dirAfterSplit : Dir
  singleExitOk : Bool
  dirAfterSingle : Dir

/-- Lines 778-793: on a zero exit, accept if any file with an expected
extension is present and then write the completion marker; no content
validation is performed. -/
def finishDump (srr : String) (d : Dir) : Dir × Bool :=
  let files := (Dir.names d).filter hasFastqExt
  if files.isEmpty = true then (d, false)
  else (Dir.insert d (markerFileName srr) markerData, true)

/-- Embeds `download_with_fastq_dump` (lines 733-797): try split output
first, fall back to unsplit on a non-zero exit, then accept by file
existence alone. -/
def download_with_fastq_dump (srr : String) (run : FastqDumpRun) : Dir × Bool :=
  if run.splitExitOk = true then finishDump srr run.dirAfterSplit
  else if run.singleExitOk = true then finishDump srr run.dirAfterSingle
  else (run.dirAfterSingle, false)

/-- The download strategies, in chain order, for the attempt trace. -/
inductive StratName where
  | sra
  | curl
  | ncbi
  | amalgkit
  | fastqDump
deriving DecidableEq, Repr

/-- Worker outcome: the `"success"` / `"skipped"` / `"failed"` tags of
`download_worker`. -/
inductive Outcome where
  | success
  | skipped
  | failed
deriving DecidableEq, Repr

/-- Execution environment of one item: the metadata table, the item's
directory, and oracles for the external download strategies (each maps
the directory before the attempt to the directory after plus a success
flag). -/
structure Env where
  meta : Metadata
  dir : Dir
  sraAvailable : Bool
  sraStrategy : Dir → Dir × Bool
  curlStrategy : Dir → Dir × Bool
  ncbiStrategy : Dir → Dir × Bool
  amalgkitStrategy : Dir → Dir × Bool
  dumpRun : FastqDumpRun

/-- Tail of the strategy chain from the amalgkit fallback (lines
1057-1174): on amalgkit failure, `fastq-dump` is the last resort. -/
def chainAmalgkit (env : Env) (srr : String) (d : Dir) (tr : List StratName) :
    Dir × Bool × List StratName :=
  let r := env.amalgkitStrategy d
  let tr1 := tr ++ [StratName.amalgkit]
  if r.2 = true then (r.1, true, tr1)
  else
    let fr := download_with_fastq_dump srr env.dumpRun
    (fr.1, fr.2, tr1 ++ [StratName.fastqDump])

/-- Chain tail from the NCBI strategy (lines 1044-1055). -/
def chainFromNcbi (env : Env) (srr : String) (d : Dir) (tr : List StratName) :
    Dir × Bool × List StratName :=
  let r := env.ncbiStrategy d
  if r.2 = true then (r.1, true, tr ++ [StratName.ncbi])
  else chainAmalgkit env srr r.1 (tr ++ [StratName.ncbi])

/-- Chain tail from the EBI curl strategy (lines 1031-1042). -/
def chainFromCurl (env : Env) (srr : String) (d : Dir) (tr : List StratName) :
    Dir × Bool × List StratName :=
  let r := env.curlStrategy d
  if r.2 = true then (r.1, true, tr ++ [StratName.curl])
  else chainFromNcbi env srr r.1 (tr ++ [StratName.curl])

/-- Embeds `download_single_sra` (lines 993-1185): resolve the layout,
probe for existing files (returning success with no strategy attempted if
the probe hits), then run the strategy chain in its fixed order.  The
third component records which strategies were attempted. -/
def download_single_sra (env : Env) (srr : String) :
    Dir × Bool × List StratName :=
  let is_paired := get_layout_from_metadata env.meta srr
  let probe := check_existing_files env.dir srr is_paired
  if probe.2 = true then (probe.1, true, [])
  else if env.sraAvailable = true then
    let r := env.sraStrategy probe.1
    if r.2 = true then (r.1, true, [StratName.sra])
    else chainFromCurl env srr r.1 [StratName.sra]
  else chainFromCurl env srr probe.1 []

/-- Embeds `download_worker` (lines 1187-1206): without the force flag,
probe first (with the *default* `paired=False`) and classify a hit as
skipped; otherwise run `download_single_sra` and map its boolean to
success or failed. -/
def download_worker (env : Env) (srr : String) (force : Bool) :
    Outcome × List StratName × Dir :=
  if force = false then
    let probe := check_existing_files env.dir srr (some false)
    if probe.2 = true then (Outcome.skipped, [], probe.1)
    else
      let r := download_single_sra { env with dir := probe.1 } srr
      (if r.2.1 = true then Outcome.success else Outcome.failed, r.2.2, r.1)
  else
    let r := download_single_sra env srr
    (if r.2.1 = true then Outcome.success else Outcome.failed, r.2.2, r.1)

/-- What the coordinator sees for one finished worker: the returned
outcome, or an exception raised by the future. -/
inductive WorkerResult where
  | ok (o : Outcome)
  | exn
deriving DecidableEq, Repr

/-- The coordinator's shared counters (lines 1475-1479). -/
structure Counters where
  successful : Nat
  skipped : Nat
  failed : Nat
  completed : Nat
deriving DecidableEq, Repr

/-- Folding one completed worker into the counters (lines 1500-1533):
success and skipped go to their own counters, anything else (including
the exception path) counts as failed; `completed` always advances. -/
def foldOutcome (c : Counters) (r : WorkerResult) : Counters :=
  match r with
  | WorkerResult.ok Outcome.success =>
    { c with successful := c.successful + 1, completed := c.completed + 1 }
  | WorkerResult.ok Outcome.skipped =>
    { c with skipped := c.skipped + 1, completed := c.completed + 1 }
  | WorkerResult.ok Outcome.failed =>
    { c with failed := c.failed + 1, completed := c.completed + 1 }
  | WorkerResult.exn =>
    { c with failed := c.failed + 1, completed := c.completed + 1 }

/-- Results that the fold counts as failed. -/
def isFailedResult : WorkerResult → Bool
  | WorkerResult.ok Outcome.success => false
  | WorkerResult.ok Outcome.skipped => false
  | _ => true

/-- Counters after folding a completion sequence, starting from zero. -/
def run_counters (results : List WorkerResult) : Counters :=
  results.foldl foldOutcome ⟨0, 0, 0, 0⟩

/-- Exit behaviour of `main` (lines 1430-1437 and 1567-1570) as a function
of input-file existence and the worker completion sequence: the returned
pair is (exit code, whether the download phase ran at all).  Missing
inputs exit 1 before any work; otherwise the exit code is 1 exactly when
the failed counter is positive. -/
def main_run (idListExists metadataExists : Bool)
    (results : List WorkerResult) : Nat × Bool :=
  if idListExists = false then (1, false)
  else if metadataExists = false then (1, false)
  else if 0 < (run_counters results).failed then (1, true)
  else (0, true)

/-- A structurally valid gzip FASTQ file. -/
def goodFd : FileData :=
  ⟨2000, "binary", true, true, ["@r1\n", "ACGTACGT\n", "+\n", "IIIIIIII\n"]⟩

/-- A corrupt gzip file: present and non-empty but not decompressible. -/
def badGzFd : FileData := ⟨2000, "binary", true, false, []⟩

/-- A small HTML error page served instead of data. -/
def errPageFd : FileData := ⟨200, "<html><body>404 Not Found", true, true, []⟩

/-- Directory holding one valid single-end file. -/
def dSingleGood : Dir := [("SRR000001.fastq.gz", goodFd)]

/-- Directory holding a valid paired file set (no marker). -/
def dPairGood : Dir :=
  [("SRR000001_1.fastq.gz", goodFd), ("SRR000001_2.fastq.gz", goodFd)]

/-- Directory holding a paired file set in which both halves are corrupt. -/
def dPairBad : Dir :=
  [("SRR000001_1.fastq.gz", badGzFd), ("SRR000001_2.fastq.gz", badGzFd)]

/-- A strategy oracle that always fails without touching the directory. -/
def noStrategy : Dir → Dir × Bool := fun d => (d, false)

/-- A `fastq-dump` oracle whose invocations fail and produce nothing. -/
def dumpIdle : FastqDumpRun := ⟨false, [], false, []⟩

/-- A `fastq-dump` oracle whose split invocation exits 0 and leaves one
corrupt (non-decompressible) output file behind. -/
def dumpBad : FastqDumpRun := ⟨true, [("SRR000001.fastq.gz", badGzFd)], false, []⟩

/-- Metadata marking SRR000001 as single-ended. -/
def metaSingle : Metadata :=
  ⟨true, ["run_accession", "library_layout"],
   [⟨[("run_accession", some "SRR000001"), ("library_layout", some "SINGLE")]⟩]⟩

/-- Metadata marking SRR000001 as paired-ended. -/
def metaPaired : Metadata :=
  ⟨true, ["run_accession", "library_layout"],
   [⟨[("run_accession", some "SRR000001"), ("library_layout", some "PAIRED")]⟩]⟩

/-- Environment: single-ended item with valid existing output and all
strategies failing. -/
def envSingle : Env :=
  ⟨metaSingle, dSingleGood, false, noStrategy, noStrategy, noStrategy,
   noStrategy, dumpIdle⟩

/-- Environment: paired-ended item with valid existing output and all
strategies failing. -/
def envPaired : Env :=
  ⟨metaPaired, dPairGood, false, noStrategy, noStrategy, noStrategy,
   noStrategy, dumpIdle⟩

theorem lookup_remove_self (d : Dir) (n : String) :
    Dir.lookup? (Dir.remove d n) n = none := by
  induction d with
  | nil => rfl
  | cons hd tl ih =>
    obtain ⟨k, fd⟩ := hd
    by_cases hk : k = n
    · simpa [Dir.remove, hk] using ih
    · simpa [Dir.remove, Dir.lookup?, hk] using ih

theorem lookup_remove_ne (d : Dir) {n m : String} (h : m ≠ n) :
    Dir.lookup? (Dir.remove d n) m = Dir.lookup? d m := by
  induction d with
  | nil => rfl
  | cons hd tl ih =>
    obtain ⟨k, fd⟩ := hd
    by_cases hk : k = n
    · simp [Dir.remove, Dir.lookup?, hk, Ne.symm h, ih]
    · by_cases hkm : k = m
      · simp [Dir.remove, Dir.lookup?, hk, hkm, h]
      · simp [Dir.remove, Dir.lookup?, hk, hkm, ih]

theorem validAt_remove (d : Dir) (n x : String) :
    validAt (Dir.remove d n) x = if x = n then false else validAt d x := by
  by_cases hx : x = n
  · subst hx
    simp [validAt, lookup_remove_self]
  · simp [validAt, lookup_remove_ne d hx, hx]

theorem validAt_remove_true {d : Dir} {n x : String}
    (h : validAt (Dir.remove d n) x = true) : validAt d x = true := by
  rw [validAt_remove] at h
  by_cases hx : x = n
  · simp [hx] at h
  · simpa [hx] using h

/-- Validity-transfer order between directories: anything valid in `e` is
valid in `d` (used to undo the eager removals done inside the probe
loops). -/
def validLe (e d : Dir) : Prop :=
  ∀ x : String, validAt e x = true → validAt d x = true

theorem validLe_refl (d : Dir) : validLe d d :=
  fun _ h => h

theorem validLe_remove (d : Dir) (n : String) : validLe (Dir.remove d n) d :=
  fun _ h => validAt_remove_true h

theorem validLe_trans {e d c : Dir} (h1 : validLe e d) (h2 : validLe d c) :
    validLe e c :=
  fun x hx => h2 x (h1 x hx)

theorem validLe_ite (c : Prop) [Decidable c] {e1 e2 d : Dir}
    (h1 : validLe e1 d) (h2 : validLe e2 d) :
    validLe (if c then e1 else e2) d := by
  split
  · exact h1
  · exact h2

theorem checkSinglePatterns_sound (marker : String) :
    ∀ (fs : List String) (d : Dir),
      (checkSinglePatterns marker d fs).2 = true →
      ∃ f ∈ fs, validAt d f = true := by
  intro fs
  induction fs with
  | nil =>
    intro d h
    simp [checkSinglePatterns] at h
  | cons f rest ih =>
    intro d h
    simp only [checkSinglePatterns] at h
    split at h
    · split at h
      · rename_i hv
        exact ⟨f, List.mem_cons_self f rest, hv⟩
      · obtain ⟨g, hg, hgv⟩ := ih (Dir.remove d f) h
        exact ⟨g, List.mem_cons_of_mem f hg, validAt_remove_true hgv⟩
    · obtain ⟨g, hg, hgv⟩ := ih d h
      exact ⟨g, List.mem_cons_of_mem f hg, hgv⟩

theorem checkPairedPatterns_sound (marker : String) :
    ∀ (ps : List (String × String)) (d : Dir),
      (checkPairedPatterns marker d ps).2 = true →
      ∃ p ∈ ps, validAt d p.1 = true ∧ validAt d p.2 = true := by
  intro ps
  induction ps with
  | nil =>
    intro d h
    simp [checkPairedPatterns] at h
  | cons p rest ih =>
    intro d h
    obtain ⟨f1, f2⟩ := p
    simp only [checkPairedPatterns] at h
    split at h
    · split at h
      · rename_i hv
        exact ⟨(f1, f2), List.mem_cons_self (f1, f2) rest, hv.1, hv.2⟩
      · obtain ⟨g, hg, hg1, hg2⟩ := ih _ h
        have hle : validLe
            (if validAt d f2 = false then
              Dir.remove (if validAt d f1 = false then Dir.remove d f1 else d) f2
             else if validAt d f1 = false then Dir.remove d f1 else d) d := by
          have h1 : validLe (if validAt d f1 = false then Dir.remove d f1 else d) d :=
            validLe_ite _ (validLe_remove d f1) (validLe_refl d)
          exact validLe_ite _
            (validLe_trans (validLe_remove _ f2) h1) h1
        exact ⟨g, List.mem_cons_of_mem (f1, f2) hg, hle g.1 hg1, hle g.2 hg2⟩
    · obtain ⟨g, hg, hg1, hg2⟩ := ih d h
      exact ⟨g, List.mem_cons_of_mem (f1, f2) hg, hg1, hg2⟩

theorem fileExists_insert (d : Dir) (n : String) (fd : FileData) :
    Dir.fileExists (Dir.insert d n fd) n = true := by
  simp [Dir.fileExists, Dir.insert, Dir.lookup?]

theorem foldl_counters (rs : List WorkerResult) :
    ∀ c : Counters,
      (rs.foldl foldOutcome c).completed = c.completed + rs.length ∧
      (rs.foldl foldOutcome c).failed = c.failed + rs.countP isFailedResult ∧
      (rs.foldl foldOutcome c).successful + (rs.foldl foldOutcome c).skipped +
          (rs.foldl foldOutcome c).failed
        = c.successful + c.skipped + c.failed + rs.length := by
  induction rs with
  | nil =>
    intro c
    simp
  | cons r rest ih =>
    intro c
    obtain ⟨ih1, ih2, ih3⟩ := ih (foldOutcome c r)
    refine ⟨?_, ?_, ?_⟩ <;>
      · simp only [List.foldl_cons, List.countP_cons, List.length_cons] at *
        cases r with
        | ok o =>
          cases o <;> simp [foldOutcome, isFailedResult] at * <;> omega
        | exn =>
          simp [foldOutcome, isFailedResult] at *
          omega

/-- C5: for every file shorter than the minimum size threshold (1024
bytes) whose leading bytes contain a recognizable error-page marker, the
validator returns invalid via the error-page branch, never reaching the
truncated (fewer-than-four-lines) branch. -/
theorem C5_error_page_wins (path : String) (fd : FileData)
    (hsize : fd.size < 1024) (hread : fd.readable = true)
    (hmark : containsErrorMarker fd.header = true) :
    is_valid_fastq_file path fd = ⟨false, VReason.errorPage⟩ := by
  simp [is_valid_fastq_file, hsize, hread, hmark]

/-- Witness for C5: a concrete 200-byte HTML error page. -/
theorem C5_error_page_wins_witness :
    errPageFd.size < 1024 ∧ errPageFd.readable = true ∧
    containsErrorMarker errPageFd.header = true ∧
    is_valid_fastq_file "SRR000001.fastq.gz" errPageFd =
      ⟨false, VReason.errorPage⟩ :=
  ⟨by decide, by decide, by decide,
   C5_error_page_wins "SRR000001.fastq.gz" errPageFd (by decide) (by decide)
     (by decide)⟩

/-- C6: for every path ending in the compressed extension whose content
fails to decompress or decode, the validator returns invalid (False).
That it never raises is modelled by `is_valid_fastq_file` being a total
function. -/
theorem C6_gzip_failure_invalid (path : String) (fd : FileData)
    (hgz : strEndsWith path ".gz" = true) (hdec : fd.decompressible = false) :
    (is_valid_fastq_file path fd).valid = false := by
  by_cases hs : fd.size < 1024
  · by_cases hr : fd.readable = false
    · simp [is_valid_fastq_file, hs, hr]
    · by_cases hm : containsErrorMarker fd.header = true
      · simp [is_valid_fastq_file, hs, hr, hm]
      · simp [is_valid_fastq_file, structuralPart, hs, hr, hm, hgz, hdec]
  · simp [is_valid_fastq_file, structuralPart, hs, hgz, hdec]

/-- Witness for C6: a concrete corrupt gzip file. -/
theorem C6_gzip_failure_invalid_witness :
    strEndsWith "SRR000001.fastq.gz" ".gz" = true ∧
    badGzFd.decompressible = false ∧
    (is_valid_fastq_file "SRR000001.fastq.gz" badGzFd).valid = false :=
  ⟨by decide, by decide,
   C6_gzip_failure_invalid "SRR000001.fastq.gz" badGzFd (by decide) (by decide)⟩

theorem valid_eq_structural (path : String) (fd : FileData)
    (hread : fd.readable = true)
    (hmark : fd.size < 1024 → containsErrorMarker fd.header = false)
    (hgz : strEndsWith path ".gz" = true → fd.decompressible = true) :
    is_valid_fastq_file path fd = structuralCheck (fd.lines.take 4) := by
  have hA : is_valid_fastq_file path fd = structuralPart path fd := by
    unfold is_valid_fastq_file
    by_cases hs : fd.size < 1024
    · simp [hs, hread, hmark hs]
    · simp [hs]
  rw [hA]
  unfold structuralPart
  by_cases hz : strEndsWith path ".gz" = true
  · simp [hz, hgz hz]
  · simp [hz, hread]

/-- C7: for every readable file (compressed or not) reaching the
structural check, the validator reads exactly four logical lines and
returns invalid (truncated) when fewer than four lines exist, invalid when
line 1 does not begin with `@`, invalid when line 3 does not begin with
`+`, and valid when all three conditions are satisfied. -/
theorem C7_structural_check (path : String) (fd : FileData)
    (hread : fd.readable = true)
    (hmark : fd.size < 1024 → containsErrorMarker fd.header = false)
    (hgz : strEndsWith path ".gz" = true → fd.decompressible = true) :
    (fd.lines.length < 4 →
      is_valid_fastq_file path fd = ⟨false, VReason.truncated⟩) ∧
    (∀ l1, fd.lines[0]? = some l1 → strStartsWith l1 "@" = false →
      4 ≤ fd.lines.length →
      is_valid_fastq_file path fd = ⟨false, VReason.noAtSign⟩) ∧
    (∀ l1 l3, fd.lines[0]? = some l1 → fd.lines[2]? = some l3 →
      strStartsWith l1 "@" = true → strStartsWith l3 "+" = false →
      4 ≤ fd.lines.length →
      is_valid_fastq_file path fd = ⟨false, VReason.noPlusSign⟩) ∧
    (∀ l1 l3, fd.lines[0]? = some l1 → fd.lines[2]? = some l3 →
      strStartsWith l1 "@" = true → strStartsWith l3 "+" = true →
      4 ≤ fd.lines.length →
      is_valid_fastq_file path fd = ⟨true, VReason.ok⟩) := by
  have he := valid_eq_structural path fd hread hmark hgz
  rcases hls : fd.lines with _ | ⟨a, _ | ⟨b, _ | ⟨c, _ | ⟨e, rest⟩⟩⟩⟩ <;>
    rw [hls] at he <;>
    refine ⟨?_, ?_, ?_, ?_⟩ <;>
    simp_all [structuralCheck]

/-- Witness for C7: the all-conditions-satisfied branch on a concrete
well-formed plain FASTQ file. -/
theorem C7_structural_check_witness :
    is_valid_fastq_file "SRR000001.fastq" goodFd = ⟨true, VReason.ok⟩ :=
  (C7_structural_check "SRR000001.fastq" goodFd (by decide) (by decide)
      (by decide)).2.2.2 "@r1\n" "+\n" (by decide) (by decide) (by decide)
    (by decide) (by decide)

/-- C9: the process exits with status 0 when every item ends
already-present (skipped) or succeeded; it exits with status 1 when at
least one item ends failed (a worker exception also counts as failed) or
when the required ID-list or metadata input file is missing, and in the
missing-input case it terminates before any work begins (second component
false). -/
theorem C9_exit_codes :
    (∀ rs : List WorkerResult,
      (∀ r ∈ rs, r = WorkerResult.ok Outcome.success ∨
        r = WorkerResult.ok Outcome.skipped) →
      main_run true true rs = (0, true)) ∧
    (∀ (rs : List WorkerResult) (r : WorkerResult), r ∈ rs →
      (r = WorkerResult.ok Outcome.failed ∨ r = WorkerResult.exn) →
      main_run true true rs = (1, true)) ∧
    (∀ (idE mE : Bool) (rs : List WorkerResult), idE = false ∨ mE = false →
      main_run idE mE rs = (1, false)) := by
  refine ⟨?_, ?_, ?_⟩
  · intro rs hall
    have hcount : rs.countP isFailedResult = 0 := by
      rw [List.countP_eq_zero]
      intro a ha
      rcases hall a ha with h | h <;> simp [h, isFailedResult]
    have hf : (run_counters rs).failed = 0 := by
      have h2 := (foldl_counters rs ⟨0, 0, 0, 0⟩).2.1
      simpa [run_counters, hcount] using h2
    simp [main_run, hf]
  · intro rs r hmem hbad
    have hcount : 0 < rs.countP isFailedResult := by
      rw [List.countP_pos_iff]
      refine ⟨r, hmem, ?_⟩
      rcases hbad with h | h <;> simp [h, isFailedResult]
    have hf : 0 < (run_counters rs).failed := by
      have h2 := (foldl_counters rs ⟨0, 0, 0, 0⟩).2.1
      simp only [run_counters] at *
      omega
    simp [main_run, hf]
  · intro idE mE rs h
    rcases h with h | h
    · simp [main_run, h]
    · by_cases hid : idE = false
      · simp [main_run, hid]
      · simp [main_run, hid, h]

/-- Witness for C9: all three exit-code clauses at concrete completion
sequences. -/
theorem C9_exit_codes_witness :
    main_run true true
        [WorkerResult.ok Outcome.success, WorkerResult.ok Outcome.skipped] =
      (0, true) ∧
    main_run true true
        [WorkerResult.ok Outcome.success, WorkerResult.ok Outcome.failed] =
      (1, true) ∧
    main_run false true [WorkerResult.ok Outcome.success] = (1, false) :=
  ⟨C9_exit_codes.1 _ (by decide),
   C9_exit_codes.2.1 _ (WorkerResult.ok Outcome.failed) (by decide) (by decide),
   C9_exit_codes.2.2 false true _ (Or.inl rfl)⟩

/-- C10: after each worker completion is folded into the coordinator's
counters (every fold is reached as some `rs.take n`), the invariant
completed = successful + skipped + failed holds, and when the pool
finishes, completed equals the total number of items, so the final
summary's per-outcome counts sum to the input ID count. -/
theorem C10_counter_invariant (rs : List WorkerResult) (n : Nat) :
    (run_counters (rs.take n)).completed
        = (run_counters (rs.take n)).successful
          + (run_counters (rs.take n)).skipped
          + (run_counters (rs.take n)).failed ∧
    (run_counters rs).completed = rs.length ∧
    (run_counters rs).successful + (run_counters rs).skipped
        + (run_counters rs).failed = rs.length := by
  have ht := foldl_counters (rs.take n) ⟨0, 0, 0, 0⟩
  have hr := foldl_counters rs ⟨0, 0, 0, 0⟩
  simp only [run_counters] at *
  omega

/-- C1 counterexample: the legacy dump-tool strategy
(`download_with_fastq_dump`) writes the completion marker after a zero
exit whenever files with the expected extensions exist, without
validating them: here the only output file is a corrupt gzip stream that
fails validation, yet the marker is written and the strategy reports
success. -/
theorem C1_dump_marker_counterexample :
    (download_with_fastq_dump "SRR000001" dumpBad).2 = true ∧
    Dir.fileExists (download_with_fastq_dump "SRR000001" dumpBad).1
      (markerFileName "SRR000001") = true ∧
    validAt (download_with_fastq_dump "SRR000001" dumpBad).1
      "SRR000001.fastq.gz" = false := by
  decide

/-- C1 amended: the existence probe writes the completion marker only
when the files of some expected naming convention pass validation (single
and paired cases), while the legacy dump-tool strategy writes the marker
purely on tool exit status plus presence of files with expected
extensions, without validating their content. -/
theorem C1_marker_discipline :
    (∀ (srr : String) (d : Dir),
      (checkSinglePatterns (markerFileName srr) d (single_files srr)).2 = true →
      ∃ f ∈ single_files srr, validAt d f = true) ∧
    (∀ (srr : String) (d : Dir),
      (checkPairedPatterns (markerFileName srr) d (file_pairs srr)).2 = true →
      ∃ p ∈ file_pairs srr, validAt d p.1 = true ∧ validAt d p.2 = true) ∧
    (∀ (srr : String) (oracle : FastqDumpRun),
      oracle.splitExitOk = true →
      ((Dir.names oracle.dirAfterSplit).filter hasFastqExt).isEmpty = false →
      (download_with_fastq_dump srr oracle).2 = true ∧
      Dir.fileExists (download_with_fastq_dump srr oracle).1
        (markerFileName srr) = true) := by
  refine ⟨?_, ?_, ?_⟩
  · intro srr d h
    exact checkSinglePatterns_sound _ _ d h
  · intro srr d h
    exact checkPairedPatterns_sound _ _ d h
  · intro srr oracle hex hfiles
    have hni : ¬(((Dir.names oracle.dirAfterSplit).filter hasFastqExt).isEmpty
        = true) := by
      simp [hfiles]
    have key : download_with_fastq_dump srr oracle =
        (Dir.insert oracle.dirAfterSplit (markerFileName srr) markerData,
          true) := by
      unfold download_with_fastq_dump finishDump
      rw [if_pos hex]
      simp only []
      rw [if_neg hni]
    rw [key]
    exact ⟨rfl, fileExists_insert _ _ _⟩

/-- Witness for C1 amended: the single-pattern probe clause on a valid
single-end directory and the dump clause on the corrupt-output oracle. -/
theorem C1_marker_discipline_witness :
    (∃ f ∈ single_files "SRR000001", validAt dSingleGood f = true) ∧
    ((download_with_fastq_dump "SRR000002" dumpBad).2 = true ∧
      Dir.fileExists (download_with_fastq_dump "SRR000002" dumpBad).1
        (markerFileName "SRR000002") = true) :=
  ⟨C1_marker_discipline.1 "SRR000001" dSingleGood (by decide),
   C1_marker_discipline.2.2 "SRR000002" dumpBad (by decide) (by decide)⟩

/-- C2 counterexample: force flag set and valid existing output present;
the worker-level probe is bypassed and the item is not classified
already-present, but no download strategy is attempted (empty attempt
trace): `download_single_sra` runs its own existence probe first and
returns success from it. -/
theorem C2_force_counterexample :
    (download_worker envSingle "SRR000001" true).1 = Outcome.success ∧
    (download_worker envSingle "SRR000001" true).2.1 = [] := by
  decide

/-- C2 amended: with the force flag set and valid existing output
present (as seen by the per-item probe under the metadata layout), the
worker-level probe is bypassed and the item is not classified
already-present; `download_single_sra` still runs its own existence
probe, which re-validates the existing files and returns success without
attempting any download strategy. -/
theorem C2_force_rechecks_existing (env : Env) (srr : String)
    (h : (check_existing_files env.dir srr
            (get_layout_from_metadata env.meta srr)).2 = true) :
    (download_worker env srr true).1 = Outcome.success ∧
    (download_worker env srr true).2.1 = [] := by
  simp [download_worker, download_single_sra, h]

/-- Witness for C2 amended at the concrete single-end environment. -/
theorem C2_force_rechecks_existing_witness :
    (download_worker envSingle "SRR000001" true).1 = Outcome.success ∧
    (download_worker envSingle "SRR000001" true).2.1 = [] := by
  have h := C2_force_rechecks_existing envSingle "SRR000001"
  exact h (by decide)

/-- C3 counterexample: an item whose output directory holds a complete,
structurally valid paired file set (no marker), with paired layout in the
metadata.  Re-running classifies it succeeded, not already-present
(skipped) — the worker-level probe assumes single layout and misses the
paired files — although no strategy is invoked (empty trace). -/
theorem C3_paired_not_skipped_counterexample :
    (download_worker envPaired "SRR000001" false).1 = Outcome.success ∧
    (download_worker envPaired "SRR000001" false).1 ≠ Outcome.skipped ∧
    (download_worker envPaired "SRR000001" false).2.1 = [] := by
  decide

/-- C3 amended: re-running never invokes a strategy for an item with
valid existing output and never re-downloads it, but the classification
depends on the layout: output that the worker-level probe (which always
assumes single layout) recognizes is classified already-present
(skipped); output only recognized by the per-item probe under the
metadata layout is classified succeeded, still with no strategy
attempted. -/
theorem C3_no_redownload_when_valid (env : Env) (srr : String) :
    ((check_existing_files env.dir srr (some false)).2 = true →
      download_worker env srr false =
        (Outcome.skipped, [],
          (check_existing_files env.dir srr (some false)).1)) ∧
    ((check_existing_files env.dir srr (some false)).2 = false →
      (check_existing_files (check_existing_files env.dir srr (some false)).1
          srr (get_layout_from_metadata env.meta srr)).2 = true →
      (download_worker env srr false).1 = Outcome.success ∧
      (download_worker env srr false).2.1 = []) := by
  constructor
  · intro h
    simp [download_worker, h]
  · intro h1 h2
    simp [download_worker, download_single_sra, h1, h2]

/-- Witness for C3 amended: the skipped clause at the concrete
single-end environment. -/
theorem C3_no_redownload_when_valid_witness :
    download_worker envSingle "SRR000001" false =
      (Outcome.skipped, [],
        (check_existing_files envSingle.dir "SRR000001" (some false)).1) :=
  (C3_no_redownload_when_valid envSingle "SRR000001").1 (by decide)

/-- C4 counterexample: under unknown layout the downstream code does not
attempt the paired-capable patterns first: the curl strategy requests
only the single-end file name, and the existence probe misses a valid
paired file set that it would recognize under paired layout. -/
theorem C4_unknown_layout_counterexample :
    curl_file_names "SRR000001" none = ["SRR000001.fastq.gz"] ∧
    (check_existing_files dPairGood "SRR000001" (some true)).2 = true ∧
    (check_existing_files dPairGood "SRR000001" none).2 = false := by
  decide

/-- C4 amended: the layout resolver returns unknown (`none`), never
failing, on a parse error, on a missing key column, and on a lookup miss;
downstream, an unknown layout is treated as single-ended: the curl
strategy requests only the single-end file name and the existence probe
(marker absent) scans only the single-end patterns. -/
theorem C4_unknown_layout_behavior :
    (∀ (m : Metadata) (srr : String), m.parseOk = false →
      get_layout_from_metadata m srr = none) ∧
    (∀ (m : Metadata) (srr : String),
      (m.columns.contains "run_accession") = false →
      (m.columns.contains "run") = false →
      get_layout_from_metadata m srr = none) ∧
    (∀ (m : Metadata) (srr : String),
      (m.columns.contains "run_accession") = true →
      m.rows.find? (fun r => r.cell "run_accession" == some srr) = none →
      get_layout_from_metadata m srr = none) ∧
    (∀ srr : String, curl_file_names srr none = [srr ++ ".fastq.gz"]) ∧
    (∀ (d : Dir) (srr : String),
      Dir.fileExists d (markerFileName srr) = false →
      check_existing_files d srr none =
        checkSinglePatterns (markerFileName srr) d (single_files srr)) := by
  refine ⟨?_, ?_, ?_, ?_, ?_⟩
  · intro m srr h
    simp [get_layout_from_metadata, h]
  · intro m srr h1 h2
    simp at h1 h2
    by_cases hp : m.parseOk = false
    · simp [get_layout_from_metadata, hp]
    · simp [get_layout_from_metadata, hp, h1, h2]
  · intro m srr h1 h2
    simp at h1
    by_cases hp : m.parseOk = false
    · simp [get_layout_from_metadata, hp]
    · simp [get_layout_from_metadata, hp, h1, h2]
  · intro srr
    simp [curl_file_names, truthy]
  · intro d srr h
    simp [check_existing_files, truthy, h]

/-- Witness for C4 amended: each unknown-producing failure mode at a
concrete metadata table, and the single-pattern probe reduction at a
concrete directory. -/
theorem C4_unknown_layout_behavior_witness :
    get_layout_from_metadata ⟨false, [], []⟩ "SRR000001" = none ∧
    get_layout_from_metadata ⟨true, ["sample"], []⟩ "SRR000001" = none ∧
    get_layout_from_metadata metaSingle "SRR000999" = none ∧
    check_existing_files dPairGood "SRR000001" none =
      checkSinglePatterns (markerFileName "SRR000001") dPairGood
        (single_files "SRR000001") :=
  ⟨C4_unknown_layout_behavior.1 ⟨false, [], []⟩ "SRR000001" (by decide),
   C4_unknown_layout_behavior.2.1 ⟨true, ["sample"], []⟩ "SRR000001"
     (by decide) (by decide),
   C4_unknown_layout_behavior.2.2.1 metaSingle "SRR000999" (by decide)
     (by decide),
   C4_unknown_layout_behavior.2.2.2.2 dPairGood "SRR000001" (by decide)⟩

/-- C8 counterexample: post-download verification on a paired set whose
halves are both invalid removes only the first half; the second invalid
file remains on disk when the operation returns. -/
theorem C8_second_half_remains_counterexample :
    validAt dPairBad "SRR000001_1.fastq.gz" = false ∧
    validAt dPairBad "SRR000001_2.fastq.gz" = false ∧
    Dir.fileExists (verify_and_clean_downloads dPairBad "SRR000001" true).1
      "SRR000001_2.fastq.gz" = true := by
  decide

/-- C8 amended: when both halves of the first paired naming convention
exist and fail validation, the existence probe removes both, but
post-download verification (`verify_and_clean_downloads`, whose source
uses an `elif` chain) removes only the first half, leaving the second
invalid file on disk. -/
theorem C8_eager_removal_partial (fd1 fd2 : FileData)
    (h1 : (is_valid_fastq_file "SRR000001_1.fastq.gz" fd1).valid = false)
    (h2 : (is_valid_fastq_file "SRR000001_2.fastq.gz" fd2).valid = false)
    (hs1 : 0 < fd1.size) (hs2 : 0 < fd2.size) :
    Dir.fileExists (verify_and_clean_downloads
        [("SRR000001_1.fastq.gz", fd1), ("SRR000001_2.fastq.gz", fd2)]
        "SRR000001" true).1 "SRR000001_1.fastq.gz" = false ∧
    Dir.fileExists (verify_and_clean_downloads
        [("SRR000001_1.fastq.gz", fd1), ("SRR000001_2.fastq.gz", fd2)]
        "SRR000001" true).1 "SRR000001_2.fastq.gz" = true ∧
    Dir.fileExists (check_existing_files
        [("SRR000001_1.fastq.gz", fd1), ("SRR000001_2.fastq.gz", fd2)]
        "SRR000001" (some true)).1 "SRR000001_1.fastq.gz" = false ∧
    Dir.fileExists (check_existing_files
        [("SRR000001_1.fastq.gz", fd1), ("SRR000001_2.fastq.gz", fd2)]
        "SRR000001" (some true)).1 "SRR000001_2.fastq.gz" = false := by
  refine ⟨?_, ?_, ?_, ?_⟩ <;>
    simp [verify_and_clean_downloads, check_existing_files, verifyPairedLoop,
      checkPairedPatterns, file_pairs, markerFileName, truthy, validAt,
      Dir.fileExists, Dir.lookup?, Dir.remove, Dir.getsize, h1, h2, hs1, hs2]

/-- Witness for C8 amended at the concrete corrupt pair. -/
theorem C8_eager_removal_partial_witness :
    Dir.fileExists (verify_and_clean_downloads dPairBad "SRR000001" true).1
        "SRR000001_1.fastq.gz" = false ∧
    Dir.fileExists (verify_and_clean_downloads dPairBad "SRR000001" true).1
        "SRR000001_2.fastq.gz" = true ∧
    Dir.fileExists (check_existing_files dPairBad "SRR000001" (some true)).1
        "SRR000001_1.fastq.gz" = false ∧
    Dir.fileExists (check_existing_files dPairBad "SRR000001" (some true)).1
        "SRR000001_2.fastq.gz" = false := by
  have h := C8_eager_removal_partial badGzFd badGzFd (by decide) (by decide)
    (by decide) (by decide)
  exact h
